import Mathlib

/-!
Shallow embedding of `app.py` (Voice-Recorder-Online): a Flask service that
stages an uploaded audio blob, converts it with ffmpeg, serves the result for
download, and schedules deferred deletion.  File-system state is modelled as
an association list from path to byte size; the external ffmpeg process is
modelled by a `ProcResult` describing its exit behaviour and the output file
it may have written.  I/O primitives (save, remove) are assumed to succeed,
matching the non-faulting executions of the source.
-/

namespace VoiceRecorder

/-- app.config UPLOAD_FOLDER = "static/temp" (app.py line 14). -/
def UPLOAD_FOLDER : String := "static/temp"

/-- Contents of the scratch directory: an association list from file path to
byte size.  Paths written by the app are unique, but no uniqueness is assumed. -/
abbrev FS := List (String × Nat)

/-- Size lookup, the model of os.path.getsize / reading a file. -/
def FS.lookupSize : FS → String → Option Nat
  | [], _ => none
  | (n, sz) :: fs, p => if n = p then some sz else FS.lookupSize fs p

/-- os.path.exists restricted to regular files of the store. -/
def FS.pathExists (fs : FS) (p : String) : Bool := (FS.lookupSize fs p).isSome

/-- os.remove: drops every entry at the path; removing an absent path changes
nothing (every call site wraps os.remove in try/except, so no error escapes). -/
def FS.removePath : FS → String → FS
  | [], _ => []
  | (n, sz) :: fs, p => if n = p then FS.removePath fs p else (n, sz) :: FS.removePath fs p

/-- Writing a file: audio_file.save, or ffmpeg creating its output under the
-y overwrite flag. -/
def FS.writeFile (fs : FS) (p : String) (sz : Nat) : FS := (p, sz) :: FS.removePath fs p

/-- Python str.lower, for the ASCII strings that occur here. -/
def lowerChar (c : Char) : Char :=
  if 'A' ≤ c ∧ c ≤ 'Z' then Char.ofNat (c.toNat + 32) else c

/-- Python str.lower on a whole string (format_type.lower() at lines 36/46/106). -/
def pyLower (s : String) : String := String.mk (s.data.map lowerChar)

/-- Python str.upper, for the ASCII strings that occur here. -/
def upperChar (c : Char) : Char :=
  if 'a' ≤ c ∧ c ≤ 'z' then Char.ofNat (c.toNat - 32) else c

/-- Python str.upper on a whole string (format_type.upper() at line 158). -/
def pyUpper (s : String) : String := String.mk (s.data.map upperChar)

/-- Behaviour of the external ffmpeg invocation (subprocess.run, line 61):
it either completed with an exit code, a diagnostic stream and possibly an
output file of some size; or hit the 120-second timeout, possibly leaving a
partially written output file; or the binary was absent (FileNotFoundError). -/
inductive ProcResult
  | completed (returncode : Int) (stderr : String) (wrote : Option Nat)
  | timedOut (wrote : Option Nat)
  | binMissing
deriving DecidableEq, Repr

/-- The ffmpeg command list built at lines 36-54; none when the format is
neither mp3 nor wav (line 56 "Unsupported format"). -/
def buildCmd (inputPath outPath fmtType quality : String) : Option (List String) :=
  if pyLower fmtType = "mp3" then
    some ["ffmpeg", "-i", inputPath, "-codec:a", "libmp3lame", "-b:a", quality ++ "k",
      "-ar", "44100", "-ac", "2", "-y", outPath]
  else if pyLower fmtType = "wav" then
    some ["ffmpeg", "-i", inputPath, "-codec:a", "pcm_s16le",
      "-ar", "44100", "-ac", "2", "-y", outPath]
  else none

/-- Effect of the external process on the store: ffmpeg wrote the output file
(of the given size) or wrote nothing. -/
def applyProcWrite (fs : FS) (outPath : String) : Option Nat → FS
  | none => fs
  | some sz => FS.writeFile fs outPath sz

/-- convert_audio (app.py lines 27-82): checks the input path, builds the
format-specific command, runs the process, and classifies the outcome.
Returns the (success, message) pair together with the store as the external
process left it. -/
def convert_audio (fs : FS) (inputPath outPath fmtType quality : String)
    (proc : ProcResult) : (Bool × String) × FS :=
  if ¬ FS.pathExists fs inputPath then
    ((false, "Input file not found: " ++ inputPath), fs)
  else
    match buildCmd inputPath outPath fmtType quality with
    | none => ((false, "Unsupported format"), fs)
    | some _ =>
      match proc with
      | .timedOut w => ((false, "Conversion timeout"), applyProcWrite fs outPath w)
      | .binMissing => ((false, "FFmpeg not found. Please install FFmpeg."), fs)
      | .completed rc stderr w =>
        if rc = 0 ∧ FS.pathExists (applyProcWrite fs outPath w) outPath then
          ((true, "Conversion successful"), applyProcWrite fs outPath w)
        else
          ((false, "FFmpeg error: " ++ stderr), applyProcWrite fs outPath w)

/-- One /upload_audio request: whether the multipart field audio is present,
the uploaded filename, the payload size, and the optional format and quality
form fields (read with defaults at lines 106-107). -/
structure UploadReq where
  hasAudio : Bool
  filename : String
  audioSize : Nat
  format : Option String
  quality : Option String
deriving DecidableEq, Repr

/-- Per-request environment: the ffmpeg availability probe result, the
generated unique id (str(uuid4)[:8], line 120), the timestamp string
(line 121) and the external process behaviour. -/
structure Env where
  ffmpegAvailable : Bool
  uid : String
  ts : String
  proc : ProcResult
deriving DecidableEq, Repr

/-- Server state: the scratch directory plus the paths with a pending
delete_after_delay task (one entry per started timer thread). -/
structure ServerState where
  fs : FS
  timers : List String
deriving DecidableEq, Repr

/-- JSON response of /upload_audio: the 200 success body of lines 153-160
(file size reported in hundredths of a MiB, see fileSizeCentiMB) or an error
body with its HTTP status. -/
inductive UploadResp
  | ok (filename : String) (fileSize : Nat) (downloadUrl : String)
      (format : String) (quality : String)
  | err (status : Nat) (error : String)
deriving DecidableEq, Repr

/-- os.path.join(UPLOAD_FOLDER, "temp_" + uid + ".webm") (line 124). -/
def tempInputPath (uid : String) : String := UPLOAD_FOLDER ++ "/temp_" ++ uid ++ ".webm"

/-- output_filename = "recording_" + timestamp + "_" + uid + "." + format (line 131). -/
def outputFilename (ts uid fmtType : String) : String :=
  "recording_" ++ ts ++ "_" ++ uid ++ "." ++ fmtType

/-- os.path.join(UPLOAD_FOLDER, output_filename) (line 132). -/
def outputPath (ts uid fmtType : String) : String :=
  UPLOAD_FOLDER ++ "/" ++ outputFilename ts uid fmtType

/-- round(file_size / (1024*1024), 2) of line 149, reported in hundredths of
a MiB.  Python computes this on IEEE doubles with round-half-even; we round
the exact rational half-up, which no claim distinguishes. -/
def fileSizeCentiMB (bytes : Nat) : Nat := (bytes * 100 + 524288) / 1048576

/-- Lines 140-144: os.remove(temp_input) wrapped in try/except, so a failed
or repeated removal is only logged. -/
def cleanupInput (fs : FS) (p : String) : FS := FS.removePath fs p

/-- Lines 119-166 of upload_audio, after validation has passed: stage the
input, convert, unconditionally clean up the staged input, and build the
response.  No deletion timer is started on this path. -/
def processUpload (fmtType quality : String) (req : UploadReq) (env : Env)
    (s : ServerState) : UploadResp × ServerState :=
  let tempInput := tempInputPath env.uid
  let fs1 := FS.writeFile s.fs tempInput req.audioSize
  let outName := outputFilename env.ts env.uid fmtType
  let outP := outputPath env.ts env.uid fmtType
  let res := convert_audio fs1 tempInput outP fmtType quality env.proc
  let fs2 := cleanupInput res.2 tempInput
  if res.1.1 then
    (.ok outName (fileSizeCentiMB ((FS.lookupSize fs2 outP).getD 0))
        ("/download/" ++ outName) (pyUpper fmtType)
        (if fmtType = "mp3" then quality ++ " kbps" else "Uncompressed"),
      { s with fs := fs2 })
  else
    (.err 500 ("Conversion failed: " ++ res.1.2), { s with fs := fs2 })

/-- upload_audio (app.py lines 92-172): the ffmpeg probe gate, the three
validation checks, then the staging/conversion pipeline. -/
def upload_audio (req : UploadReq) (env : Env) (s : ServerState) :
    UploadResp × ServerState :=
  if ¬ env.ffmpegAvailable then
    (.err 500 "FFmpeg is not installed on the server. Please install FFmpeg.", s)
  else if ¬ req.hasAudio then
    (.err 400 "No audio file provided", s)
  else
    let fmtType := pyLower (req.format.getD "mp3")
    let quality := req.quality.getD "192"
    if req.filename = "" then
      (.err 400 "No file selected", s)
    else if ¬ (fmtType = "mp3" ∨ fmtType = "wav") then
      (.err 400 "Invalid format. Use mp3 or wav", s)
    else
      processUpload fmtType quality req env s

/-- Python str.split() whitespace set (space, tab, newline, return, vertical
tab, form feed). -/
def pyIsSpace (c : Char) : Bool :=
  c == ' ' || c == '\t' || c == '\n' || c == '\r' || c == '\x0b' || c == '\x0c'

/-- Helper for pySplitWS: accumulates the current token in reverse. -/
def splitWSAux : List Char → List Char → List (List Char)
  | [], acc => if acc = [] then [] else [acc.reverse]
  | c :: cs, acc =>
    if pyIsSpace c then
      if acc = [] then splitWSAux cs [] else acc.reverse :: splitWSAux cs []
    else splitWSAux cs (c :: acc)

/-- Python str.split() with no argument: split on whitespace runs, dropping
empty tokens. -/
def pySplitWS (l : List Char) : List (List Char) := splitWSAux l []

/-- Characters kept by the werkzeug filename strip regex: A-Za-z0-9_.- . -/
def allowedChar (c : Char) : Bool :=
  c.isAlpha || c.isDigit || c == '_' || c == '.' || c == '-'

/-- The character set of Python str.strip("._"). -/
def isDotUnderscore (c : Char) : Bool := c == '.' || c == '_'

/-- Python str.strip("._"): drop leading and trailing dots and underscores. -/
def stripDotUnderscore (l : List Char) : List Char :=
  List.rdropWhile isDotUnderscore (l.dropWhile isDotUnderscore)

/-- werkzeug.utils.secure_filename on POSIX for ASCII-range input: drop
non-ASCII (the NFKD/ascii-encode step is the identity on ASCII), replace the
path separator by a space, collapse whitespace runs to single underscores,
delete disallowed characters, and strip leading/trailing dots/underscores.
The Windows device-name special case does not apply on POSIX. -/
def secure_filename (s : String) : String :=
  let ascii := s.data.filter (fun c => decide (c.toNat < 128))
  let noSep := ascii.map (fun c => if c = '/' then ' ' else c)
  let joined := List.intercalate ['_'] (pySplitWS noSep)
  let cleaned := joined.filter allowedChar
  String.mk (stripDotUnderscore cleaned)

/-- os.path.join(dir, name) for the POSIX cases reachable here: an absolute
name replaces the whole path, an empty name appends only the separator. -/
def pathJoin (dir name : String) : String :=
  if name.data.head? = some '/' then name
  else if name.data = [] then dir ++ "/"
  else dir ++ "/" ++ name

/-- os.path.exists as used by download_file: true for a stored file, and for
the scratch directory itself (created at startup, line 17), whose path arises
from joining an empty sanitized name. -/
def osPathExists (fs : FS) (p : String) : Bool :=
  FS.pathExists fs p || p == UPLOAD_FOLDER ++ "/"

/-- Response of GET /download/filename: the served attachment, the 404 body,
or the 500 body produced when send_file raises. -/
inductive DownloadResp
  | fileAttachment (path : String) (size : Nat) (downloadName : String)
  | notFound
  | errServer (msg : String)
deriving DecidableEq, Repr

/-- download_file (app.py lines 174-210): sanitize, join, check existence,
start the detached deletion timer, and serve.  The timer thread is started
before send_file runs, so it is armed even when send_file then raises (the
scratch-directory case, answered 500 by the except clause). -/
def download_file (s : ServerState) (filename : String) :
    DownloadResp × ServerState :=
  let n := secure_filename filename
  let fp := pathJoin UPLOAD_FOLDER n
  if ¬ osPathExists s.fs fp then
    (.notFound, s)
  else
    let s2 : ServerState := { s with timers := fp :: s.timers }
    if fp = UPLOAD_FOLDER ++ "/" then
      (.errServer ("Download error: Is a directory: " ++ fp), s2)
    else
      match FS.lookupSize s.fs fp with
      | some sz => (.fileAttachment fp sz filename, s2)
      | none => (.notFound, s2)

/-- Body of delete_after_delay (lines 190-197) once the 300-second sleep has
elapsed: delete the file if still present; failures (including firing on an
already-deleted file) are swallowed by the except clause. -/
def fireTimer (fs : FS) (p : String) : FS :=
  if osPathExists fs p then FS.removePath fs p else fs

/-- Is the upload response a 400 client error? -/
def isClientError : UploadResp → Bool
  | .err 400 _ => true
  | _ => false

/-- The error message of an upload response, if it is an error. -/
def respErrorMsg : UploadResp → Option String
  | .err _ m => some m
  | _ => none

/-! ### Store lemmas -/

theorem FS.lookupSize_removePath_self (fs : FS) (p : String) :
    FS.lookupSize (FS.removePath fs p) p = none := by
  induction fs with
  | nil => rfl
  | cons e fs ih =>
    obtain ⟨n, sz⟩ := e
    by_cases h : n = p <;> simp [FS.removePath, FS.lookupSize, h, ih]

theorem FS.lookupSize_removePath_ne (fs : FS) (p q : String) (h : q ≠ p) :
    FS.lookupSize (FS.removePath fs p) q = FS.lookupSize fs q := by
  induction fs with
  | nil => rfl
  | cons e fs ih =>
    obtain ⟨n, sz⟩ := e
    by_cases h1 : n = p
    · subst h1
      simp [FS.removePath, FS.lookupSize, Ne.symm h, ih]
    · by_cases h2 : n = q <;> simp [FS.removePath, FS.lookupSize, h1, h2, h, ih]

theorem FS.removePath_removePath (fs : FS) (p : String) :
    FS.removePath (FS.removePath fs p) p = FS.removePath fs p := by
  induction fs with
  | nil => rfl
  | cons e fs ih =>
    obtain ⟨n, sz⟩ := e
    by_cases h : n = p <;> simp [FS.removePath, h, ih]

theorem FS.pathExists_removePath_self (fs : FS) (p : String) :
    FS.pathExists (FS.removePath fs p) p = false := by
  simp [FS.pathExists, FS.lookupSize_removePath_self]

theorem FS.lookupSize_writeFile_self (fs : FS) (p : String) (sz : Nat) :
    FS.lookupSize (FS.writeFile fs p sz) p = some sz := by
  simp [FS.writeFile, FS.lookupSize]

/-! ### Path disequalities -/

theorem tempInputPath_ne_outputPath (uid ts fmt : String) :
    tempInputPath uid ≠ outputPath ts uid fmt := by
  intro h
  have h1 : (tempInputPath uid).data.get? 12 = some 't' := rfl
  have h2 : (outputPath ts uid fmt).data.get? 12 = some 'r' := rfl
  rw [h, h2] at h1
  simp at h1

theorem append_ne_of_data_ne_nil (a b : String) (hb : b.data ≠ []) : a ++ b ≠ a := by
  intro h
  have h2 : (a ++ b).data = a.data := congrArg String.data h
  rw [String.data_append] at h2
  have h3 : a.data ++ b.data = a.data ++ [] := by simpa using h2
  exact hb (List.append_cancel_left h3)

/-! ### Conversion lemmas -/

theorem convert_audio_success_pathExists (fs : FS) (i o f q : String) (p : ProcResult)
    (h : (convert_audio fs i o f q p).1.1 = true) :
    FS.pathExists (convert_audio fs i o f q p).2 o = true := by
  unfold convert_audio at h ⊢
  by_cases h1 : FS.pathExists fs i
  · simp only [h1] at h ⊢
    cases hb : buildCmd i o f q with
    | none => simp [hb] at h
    | some cmd =>
      simp only [hb] at h ⊢
      cases p with
      | timedOut w => simp at h
      | binMissing => simp at h
      | completed rc stderr w =>
        by_cases hc : rc = 0 ∧ FS.pathExists (applyProcWrite fs o w) o
        · simp only [if_pos hc]
          exact hc.2
        · simp [if_neg hc] at h
  · simp [h1] at h

/-! ### Reduction of upload_audio past validation -/

theorem upload_audio_valid (req : UploadReq) (env : Env) (s : ServerState)
    (hff : env.ffmpegAvailable = true) (ha : req.hasAudio = true)
    (hfn : ¬ req.filename = "")
    (hfv : pyLower (req.format.getD "mp3") = "mp3" ∨
      pyLower (req.format.getD "mp3") = "wav") :
    upload_audio req env s =
      processUpload (pyLower (req.format.getD "mp3")) (req.quality.getD "192")
        req env s := by
  unfold upload_audio
  rcases hfv with h | h <;> simp [hff, ha, hfn, h]

/-! ### secure_filename lemmas -/

theorem splitWSAux_no_ws (l : List Char) (hl : ∀ c ∈ l, pyIsSpace c = false) :
    ∀ acc : List Char, splitWSAux l acc =
      if acc = [] ∧ l = [] then [] else [acc.reverse ++ l] := by
  induction l with
  | nil =>
    intro acc
    by_cases h : acc = [] <;> simp [splitWSAux, h]
  | cons c cs ih =>
    intro acc
    have hc : pyIsSpace c = false := hl c (List.mem_cons_self c cs)
    have hcs : ∀ x ∈ cs, pyIsSpace x = false := fun x hx => hl x (List.mem_cons_of_mem c hx)
    by_cases hcs0 : cs = [] <;>
      simp [splitWSAux, hc, ih hcs (c :: acc), hcs0]

theorem mem_of_mem_stripDotUnderscore (l : List Char) (c : Char)
    (h : c ∈ stripDotUnderscore l) : c ∈ l := by
  unfold stripDotUnderscore at h
  have hpre := List.rdropWhile_prefix isDotUnderscore (l.dropWhile isDotUnderscore)
  have h1 : c ∈ l.dropWhile isDotUnderscore := hpre.sublist.mem h
  exact (List.dropWhile_suffix isDotUnderscore).sublist.mem h1

theorem head?_dropWhile_not (p : Char → Bool) (l : List Char) (c : Char)
    (h : (l.dropWhile p).head? = some c) : p c = false := by
  induction l with
  | nil => simp [List.dropWhile] at h
  | cons a as ih =>
    by_cases hp : p a
    · rw [List.dropWhile_cons, if_pos hp] at h
      exact ih h
    · rw [List.dropWhile_cons, if_neg hp] at h
      simp at h
      subst h
      simpa using hp

theorem head?_eq_of_leading {α : Type} {t l : List α} {c : α} (hp : t <+: l)
    (h : t.head? = some c) : l.head? = some c := by
  obtain ⟨r, rfl⟩ := hp
  cases t with
  | nil => simp at h
  | cons a as => simpa using h

theorem stripDotUnderscore_head (l : List Char) (c : Char)
    (h : (stripDotUnderscore l).head? = some c) : isDotUnderscore c = false := by
  unfold stripDotUnderscore at h
  have hpre := List.rdropWhile_prefix isDotUnderscore (l.dropWhile isDotUnderscore)
  exact head?_dropWhile_not _ _ _ (head?_eq_of_leading hpre h)

theorem secure_filename_no_slash (s : String) : '/' ∉ (secure_filename s).data := by
  intro h
  unfold secure_filename at h
  have h2 := mem_of_mem_stripDotUnderscore _ _ h
  have h3 := (List.mem_filter.mp h2).2
  simp [allowedChar] at h3

theorem secure_filename_head_not (s : String) (c : Char)
    (h : (secure_filename s).data.head? = some c) : isDotUnderscore c = false := by
  unfold secure_filename at h
  exact stripDotUnderscore_head _ _ h

/-- Characters of the generated identifiers: allowed by the strip regex,
ASCII, not whitespace, not the path separator. -/
def goodChar (c : Char) : Bool :=
  allowedChar c && decide (c.toNat < 128) && !pyIsSpace c && !(c == '/')

theorem goodChar_split (c : Char) (h : goodChar c = true) :
    allowedChar c = true ∧ c.toNat < 128 ∧ pyIsSpace c = false ∧ c ≠ '/' := by
  unfold goodChar at h
  rw [Bool.and_eq_true, Bool.and_eq_true, Bool.and_eq_true] at h
  refine ⟨h.1.1.1, of_decide_eq_true h.1.1.2, ?_, ?_⟩
  · simpa using h.1.2
  · simpa using h.2

theorem secure_filename_eq_self (s : String)
    (hall : ∀ c ∈ s.data, goodChar c = true)
    (hh : ∀ c, s.data.head? = some c → isDotUnderscore c = false)
    (hl : ∀ c, s.data.getLast? = some c → isDotUnderscore c = false) :
    secure_filename s = s := by
  obtain ⟨l⟩ := s
  have hall' : ∀ c ∈ l, goodChar c = true := hall
  have hfil : l.filter (fun c => decide (c.toNat < 128)) = l :=
    List.filter_eq_self.mpr fun c hc =>
      decide_eq_true (goodChar_split c (hall' c hc)).2.1
  have hmap : (l.map fun c => if c = '/' then ' ' else c) = l := by
    have hcongr : ∀ c ∈ l, (if c = '/' then ' ' else c) = id c := fun c hc =>
      if_neg (goodChar_split c (hall' c hc)).2.2.2
    rw [List.map_congr_left hcongr, List.map_id]
  have hspace : ∀ c ∈ l, pyIsSpace c = false := fun c hc =>
    (goodChar_split c (hall' c hc)).2.2.1
  have hallowed : l.filter allowedChar = l :=
    List.filter_eq_self.mpr fun c hc => (goodChar_split c (hall' c hc)).1
  show String.mk (stripDotUnderscore (List.filter allowedChar
    (List.intercalate ['_'] (pySplitWS (List.map (fun c => if c = '/' then ' ' else c)
      (List.filter (fun c => decide (c.toNat < 128)) l)))))) = String.mk l
  rw [hfil, hmap]
  cases hl0 : l with
  | nil => rfl
  | cons a as =>
    rw [← hl0]
    have hsplit : pySplitWS l = [l] := by
      unfold pySplitWS
      rw [splitWSAux_no_ws l hspace []]
      simp [hl0]
    rw [hsplit]
    have hinter : List.intercalate ['_'] [l] = l := by
      simp [List.intercalate]
    rw [hinter, hallowed]
    have hdrop : l.dropWhile isDotUnderscore = l := by
      rw [hl0, List.dropWhile_cons,
        if_neg (by simp [hh a (by rw [hl0]; rfl)])]
    have hrdrop : List.rdropWhile isDotUnderscore l = l := by
      apply List.rdropWhile_eq_self_iff.mpr
      intro hne
      have hlast : l.getLast? = some (l.getLast hne) := List.getLast?_eq_getLast l hne
      simp [hl (l.getLast hne) hlast]
    unfold stripDotUnderscore
    rw [hdrop, hrdrop]

theorem secure_outputFilename (ts uid fmt : String)
    (hts : ∀ c ∈ ts.data, goodChar c = true)
    (huid : ∀ c ∈ uid.data, goodChar c = true)
    (hfmt : fmt = "mp3" ∨ fmt = "wav") :
    secure_filename (outputFilename ts uid fmt) = outputFilename ts uid fmt := by
  apply secure_filename_eq_self
  · intro c hc
    have hsplit : c ∈ ("recording_" : String).data ∨ c ∈ ts.data ∨
        c ∈ ("_" : String).data ∨ c ∈ uid.data ∨ c ∈ ("." : String).data ∨
        c ∈ fmt.data := by
      simpa [outputFilename, String.data_append, List.mem_append, or_assoc] using hc
    rcases hsplit with h | h | h | h | h | h
    · exact (by decide : ∀ x ∈ ("recording_" : String).data, goodChar x = true) c h
    · exact hts c h
    · exact (by decide : ∀ x ∈ ("_" : String).data, goodChar x = true) c h
    · exact huid c h
    · exact (by decide : ∀ x ∈ ("." : String).data, goodChar x = true) c h
    · rcases hfmt with hf | hf <;> subst hf
      · exact (by decide : ∀ x ∈ ("mp3" : String).data, goodChar x = true) c h
      · exact (by decide : ∀ x ∈ ("wav" : String).data, goodChar x = true) c h
  · intro c hcc
    have hr : (outputFilename ts uid fmt).data.head? = some 'r' := rfl
    rw [hr] at hcc
    cases hcc
    decide
  · intro c hcc
    rcases hfmt with hf | hf <;> subst hf
    · have h2 : (outputFilename ts uid "mp3").data.getLast? = some '3' := by
        rw [show outputFilename ts uid "mp3" =
          ("recording_" ++ ts ++ "_" ++ uid ++ ".") ++ "mp3" from rfl,
          String.data_append,
          List.getLast?_append_of_ne_nil _ (by decide)]
        rfl
      rw [h2] at hcc
      cases hcc
      decide
    · have h2 : (outputFilename ts uid "wav").data.getLast? = some 'v' := by
        rw [show outputFilename ts uid "wav" =
          ("recording_" ++ ts ++ "_" ++ uid ++ ".") ++ "wav" from rfl,
          String.data_append,
          List.getLast?_append_of_ne_nil _ (by decide)]
        rfl
      rw [h2] at hcc
      cases hcc
      decide

/-! ### String and path helpers -/

theorem data_ne_nil_of_ne_empty (n : String) (h : n ≠ "") : n.data ≠ [] := fun hd =>
  h (by obtain ⟨l⟩ := n; cases hd; rfl)

theorem pathJoin_of_good (dir n : String) (hnil : n.data ≠ []) (hsl : '/' ∉ n.data) :
    pathJoin dir n = dir ++ "/" ++ n := by
  unfold pathJoin
  rw [if_neg (fun h => hsl (List.mem_of_mem_head? (Option.mem_def.mpr h))),
    if_neg hnil]

/-! ### download_file characterizations -/

theorem download_file_serve (s : ServerState) (fname p name : String) (sz : Nat)
    (h : (download_file s fname).1 = .fileAttachment p sz name) :
    p = pathJoin UPLOAD_FOLDER (secure_filename fname) ∧
    ¬ p = UPLOAD_FOLDER ++ "/" ∧
    FS.lookupSize s.fs p = some sz ∧ name = fname ∧
    (download_file s fname).2.timers = p :: s.timers := by
  unfold download_file at h ⊢
  by_cases h1 : osPathExists s.fs (pathJoin UPLOAD_FOLDER (secure_filename fname)) = true
  · by_cases h2 : pathJoin UPLOAD_FOLDER (secure_filename fname) = UPLOAD_FOLDER ++ "/"
    · rw [h2] at h1
      simp [h1, h2] at h
    · cases hl : FS.lookupSize s.fs (pathJoin UPLOAD_FOLDER (secure_filename fname)) with
      | none => simp [h1, h2, hl] at h
      | some sz' =>
        simp [h1, h2, hl] at h
        obtain ⟨hp, hsz, hname⟩ := h
        subst hp
        subst hsz
        subst hname
        exact ⟨rfl, h2, hl, rfl, by simp [h1, h2, hl]⟩
  · rw [if_pos (by simp [h1])] at h
    simp at h

theorem download_file_notFound (s : ServerState) (fname : String)
    (habs : FS.lookupSize s.fs (pathJoin UPLOAD_FOLDER (secure_filename fname)) = none)
    (hne : secure_filename fname ≠ "") :
    (download_file s fname).1 = .notFound := by
  unfold download_file
  have hnil : (secure_filename fname).data ≠ [] := data_ne_nil_of_ne_empty _ hne
  have hjoin : pathJoin UPLOAD_FOLDER (secure_filename fname) =
      UPLOAD_FOLDER ++ "/" ++ secure_filename fname :=
    pathJoin_of_good _ _ hnil (secure_filename_no_slash fname)
  have hnedir : pathJoin UPLOAD_FOLDER (secure_filename fname) ≠ UPLOAD_FOLDER ++ "/" := by
    rw [hjoin]
    exact append_ne_of_data_ne_nil _ _ hnil
  have hex : osPathExists s.fs (pathJoin UPLOAD_FOLDER (secure_filename fname)) = false := by
    unfold osPathExists
    rw [FS.pathExists, habs]
    simp [hnedir]
  rw [if_pos (by simp [hex])]

/-- Is the upload response a 200 success body? -/
def isOk : UploadResp → Bool
  | .ok .. => true
  | _ => false

/-! ### Reduction lemmas for the conversion and the pipeline -/

theorem buildCmd_mp3 (i o q : String) :
    buildCmd i o "mp3" q = some ["ffmpeg", "-i", i, "-codec:a", "libmp3lame",
      "-b:a", q ++ "k", "-ar", "44100", "-ac", "2", "-y", o] := rfl

theorem buildCmd_wav (i o q : String) :
    buildCmd i o "wav" q = some ["ffmpeg", "-i", i, "-codec:a", "pcm_s16le",
      "-ar", "44100", "-ac", "2", "-y", o] := rfl

theorem convert_audio_timedOut_eq (fs : FS) (i o f q : String) (w : Option Nat)
    (cmd : List String) (hin : FS.pathExists fs i = true)
    (hcmd : buildCmd i o f q = some cmd) :
    convert_audio fs i o f q (.timedOut w) =
      ((false, "Conversion timeout"), applyProcWrite fs o w) := by
  unfold convert_audio
  simp [hin, hcmd]

theorem convert_audio_completed_fail_eq (fs : FS) (i o f q : String) (rc : Int)
    (stderr : String) (w : Option Nat) (cmd : List String)
    (hin : FS.pathExists fs i = true) (hcmd : buildCmd i o f q = some cmd)
    (hnot : ¬ (rc = 0 ∧ FS.pathExists (applyProcWrite fs o w) o)) :
    convert_audio fs i o f q (.completed rc stderr w) =
      ((false, "FFmpeg error: " ++ stderr), applyProcWrite fs o w) := by
  unfold convert_audio
  simp only [hcmd]
  rw [if_neg (by simp [hin]), if_neg hnot]

theorem convert_audio_completed_ok_eq (fs : FS) (i o f q : String) (rc : Int)
    (stderr : String) (w : Option Nat) (cmd : List String)
    (hin : FS.pathExists fs i = true) (hcmd : buildCmd i o f q = some cmd)
    (hyes : rc = 0 ∧ FS.pathExists (applyProcWrite fs o w) o) :
    convert_audio fs i o f q (.completed rc stderr w) =
      ((true, "Conversion successful"), applyProcWrite fs o w) := by
  unfold convert_audio
  simp only [hcmd]
  rw [if_neg (by simp [hin]), if_pos hyes]

theorem processUpload_of_fail (f q : String) (req : UploadReq) (env : Env)
    (s : ServerState) (msg : String) (fs' : FS)
    (hconv : convert_audio (FS.writeFile s.fs (tempInputPath env.uid) req.audioSize)
        (tempInputPath env.uid) (outputPath env.ts env.uid f) f q env.proc =
      ((false, msg), fs')) :
    processUpload f q req env s =
      (.err 500 ("Conversion failed: " ++ msg),
        { s with fs := FS.removePath fs' (tempInputPath env.uid) }) := by
  simp [processUpload, hconv, cleanupInput]

theorem processUpload_of_ok (f q : String) (req : UploadReq) (env : Env)
    (s : ServerState) (fs' : FS)
    (hconv : convert_audio (FS.writeFile s.fs (tempInputPath env.uid) req.audioSize)
        (tempInputPath env.uid) (outputPath env.ts env.uid f) f q env.proc =
      ((true, "Conversion successful"), fs')) :
    processUpload f q req env s =
      (.ok (outputFilename env.ts env.uid f)
        (fileSizeCentiMB ((FS.lookupSize (FS.removePath fs' (tempInputPath env.uid))
          (outputPath env.ts env.uid f)).getD 0))
        ("/download/" ++ outputFilename env.ts env.uid f) (pyUpper f)
        (if f = "mp3" then q ++ " kbps" else "Uncompressed"),
        { s with fs := FS.removePath fs' (tempInputPath env.uid) }) := by
  simp [processUpload, hconv, cleanupInput]

theorem processUpload_timers (f q : String) (req : UploadReq) (env : Env)
    (s : ServerState) : (processUpload f q req env s).2.timers = s.timers := by
  unfold processUpload
  by_cases hres : (convert_audio
      (FS.writeFile s.fs (tempInputPath env.uid) req.audioSize)
      (tempInputPath env.uid) (outputPath env.ts env.uid f) f q env.proc).1.1 = true
  <;> simp [hres]

theorem upload_audio_timers (req : UploadReq) (env : Env) (s : ServerState) :
    (upload_audio req env s).2.timers = s.timers := by
  unfold upload_audio
  by_cases h1 : env.ffmpegAvailable = true
  · by_cases h2 : req.hasAudio = true
    · by_cases h3 : req.filename = ""
      · simp [h1, h2, h3]
      · by_cases h4 : (pyLower (req.format.getD "mp3") = "mp3" ∨
            pyLower (req.format.getD "mp3") = "wav")
        · simp only [h1, h2, h3, h4, not_true_eq_false, not_false_eq_true,
            if_false, ite_true, ite_false, if_true]
          exact processUpload_timers _ _ req env s
        · simp [h1, h2, h3, h4]
    · simp [h1, h2]
  · simp [h1]

/-! ### Claim theorems -/

theorem pathExists_writeFile_self (fs : FS) (p : String) (sz : Nat) :
    FS.pathExists (FS.writeFile fs p sz) p = true := by
  simp [FS.pathExists, FS.lookupSize_writeFile_self]

/-- Claim C1 (counterexample): a successful upload — 200 response, artifact
file present in the store — leaves the pending-deletion set empty: no expiry
timer is armed at registration time, so the claim that the 300-second
deletion task is armed the moment conversion reports success, independent of
any download request, is false of the code. -/
theorem claim1_counterexample :
    isOk (upload_audio ⟨true, "blob.webm", 1000, some "mp3", some "128"⟩
      ⟨true, "abcd1234", "20250101_120000", .completed 0 "" (some 500)⟩
      ⟨[], []⟩).1 = true ∧
    FS.pathExists (upload_audio ⟨true, "blob.webm", 1000, some "mp3", some "128"⟩
      ⟨true, "abcd1234", "20250101_120000", .completed 0 "" (some 500)⟩
      ⟨[], []⟩).2.fs (outputPath "20250101_120000" "abcd1234" "mp3") = true ∧
    (upload_audio ⟨true, "blob.webm", 1000, some "mp3", some "128"⟩
      ⟨true, "abcd1234", "20250101_120000", .completed 0 "" (some 500)⟩
      ⟨[], []⟩).2.timers = [] :=
  ⟨by decide, by decide, by decide⟩

/-- Claim C1 (amended): the detached 300-second deletion task is armed per
successful download serve, not at registration: the upload path never
changes the pending-timer set, a served download pushes one timer for the
served path before the response is returned, and a firing timer deletes the
backing file when it is still present. -/
theorem claim1_amended (req : UploadReq) (env : Env) (s s2 : ServerState)
    (fname p name : String) (sz : Nat) (fs : FS)
    (hserve : (download_file s2 fname).1 = .fileAttachment p sz name)
    (hlive : FS.pathExists fs p = true) :
    (upload_audio req env s).2.timers = s.timers ∧
    (download_file s2 fname).2.timers = p :: s2.timers ∧
    FS.pathExists (fireTimer fs p) p = false := by
  refine ⟨upload_audio_timers req env s,
    (download_file_serve s2 fname p name sz hserve).2.2.2.2, ?_⟩
  unfold fireTimer
  rw [if_pos (by simp [osPathExists, hlive])]
  exact FS.pathExists_removePath_self fs p

/-- Witness for claim1_amended: a concrete served download arms exactly one
timer, whose firing deletes the file. -/
theorem claim1_amended_witness :
    (upload_audio ⟨true, "blob.webm", 1000, some "mp3", some "128"⟩
      ⟨true, "abcd1234", "20250101_120000", .completed 0 "" (some 500)⟩
      ⟨[], []⟩).2.timers = [] ∧
    (download_file ⟨[("static/temp/a.mp3", 7)], []⟩ "a.mp3").2.timers =
      "static/temp/a.mp3" :: [] ∧
    FS.pathExists (fireTimer [("static/temp/a.mp3", 7)] "static/temp/a.mp3")
      "static/temp/a.mp3" = false :=
  claim1_amended ⟨true, "blob.webm", 1000, some "mp3", some "128"⟩
    ⟨true, "abcd1234", "20250101_120000", .completed 0 "" (some 500)⟩
    ⟨[], []⟩ ⟨[("static/temp/a.mp3", 7)], []⟩
    "a.mp3" "static/temp/a.mp3" "a.mp3" 7 [("static/temp/a.mp3", 7)]
    (by decide) (by decide)

/-- Claim C5 (counterexample): a process-error failure returns the external
diagnostic stream of the process verbatim inside the 500 JSON error body — the
diagnostic is an infix of the caller-visible message — refuting the claim
that the diagnostic is only logged and never returned. -/
theorem claim5_counterexample :
    respErrorMsg (upload_audio ⟨true, "blob.webm", 1000, some "mp3", some "128"⟩
      ⟨true, "abcd1234", "20250101_120000",
        .completed 1 "ffmpeg diag including /app/static/temp paths" none⟩
      ⟨[], []⟩).1 =
      some ("Conversion failed: " ++ ("FFmpeg error: " ++
        "ffmpeg diag including /app/static/temp paths")) ∧
    ("ffmpeg diag including /app/static/temp paths").data <:+:
      ("Conversion failed: " ++ ("FFmpeg error: " ++
        "ffmpeg diag including /app/static/temp paths")).data := by
  constructor
  · decide
  · exact ⟨("Conversion failed: " ++ "FFmpeg error: ").data, [], by
      simp [String.data_append]⟩

/-- Claim C5 (amended): on a process-error conversion failure the caller
receives the process diagnostic verbatim: the 500 body is the fixed failure
prefix concatenated with the unabridged stderr stream (it is logged and
returned, not only logged). -/
theorem claim5_amended (req : UploadReq) (env : Env) (s : ServerState)
    (hff : env.ffmpegAvailable = true) (ha : req.hasAudio = true)
    (hfn : ¬ req.filename = "")
    (hfv : pyLower (req.format.getD "mp3") = "mp3" ∨
      pyLower (req.format.getD "mp3") = "wav")
    (rc : Int) (stderr : String) (w : Option Nat)
    (hproc : env.proc = .completed rc stderr w) (hrc : ¬ rc = 0) :
    (upload_audio req env s).1 =
      .err 500 ("Conversion failed: " ++ ("FFmpeg error: " ++ stderr)) := by
  rw [upload_audio_valid req env s hff ha hfn hfv]
  rcases hfv with h | h
  · rw [h]
    have hconv : convert_audio
        (FS.writeFile s.fs (tempInputPath env.uid) req.audioSize)
        (tempInputPath env.uid) (outputPath env.ts env.uid "mp3") "mp3"
        (req.quality.getD "192") env.proc =
        ((false, "FFmpeg error: " ++ stderr),
          applyProcWrite (FS.writeFile s.fs (tempInputPath env.uid) req.audioSize)
            (outputPath env.ts env.uid "mp3") w) := by
      rw [hproc]
      exact convert_audio_completed_fail_eq _ _ _ _ _ _ _ _ _
        (pathExists_writeFile_self _ _ _) (buildCmd_mp3 _ _ _)
        (fun hc => hrc hc.1)
    rw [processUpload_of_fail _ _ _ _ _ _ _ hconv]
  · rw [h]
    have hconv : convert_audio
        (FS.writeFile s.fs (tempInputPath env.uid) req.audioSize)
        (tempInputPath env.uid) (outputPath env.ts env.uid "wav") "wav"
        (req.quality.getD "192") env.proc =
        ((false, "FFmpeg error: " ++ stderr),
          applyProcWrite (FS.writeFile s.fs (tempInputPath env.uid) req.audioSize)
            (outputPath env.ts env.uid "wav") w) := by
      rw [hproc]
      exact convert_audio_completed_fail_eq _ _ _ _ _ _ _ _ _
        (pathExists_writeFile_self _ _ _) (buildCmd_wav _ _ _)
        (fun hc => hrc hc.1)
    rw [processUpload_of_fail _ _ _ _ _ _ _ hconv]

/-- Witness for claim5_amended at a concrete failing run. -/
theorem claim5_amended_witness :
    (upload_audio ⟨true, "blob.webm", 1000, some "mp3", some "128"⟩
      ⟨true, "abcd1234", "20250101_120000", .completed 1 "secret diag" none⟩
      ⟨[], []⟩).1 =
      .err 500 ("Conversion failed: " ++ ("FFmpeg error: " ++ "secret diag")) :=
  claim5_amended _ _ _ rfl rfl (by decide) (Or.inl (by decide)) 1 "secret diag"
    none rfl (by decide)

/-- Claim C7 (counterexample): when the conversion times out having written a
partial output file, the response does report the timeout reason but the
partial output file is left behind in the scratch directory — the claim that
the directory contains no partial output from the aborted run is false of
the code, which never deletes the output path on the timeout path. -/
theorem claim7_counterexample :
    (upload_audio ⟨true, "blob.webm", 1000, some "mp3", some "128"⟩
      ⟨true, "abcd1234", "20250101_120000", .timedOut (some 999)⟩
      ⟨[], []⟩).1 = .err 500 "Conversion failed: Conversion timeout" ∧
    FS.pathExists (upload_audio ⟨true, "blob.webm", 1000, some "mp3", some "128"⟩
      ⟨true, "abcd1234", "20250101_120000", .timedOut (some 999)⟩
      ⟨[], []⟩).2.fs (outputPath "20250101_120000" "abcd1234" "mp3") = true :=
  ⟨by decide, by decide⟩

/-- Claim C7 (amended): on a timeout the response reports the
timeout-specific reason and the staged input is removed, but a partial
output file written by the aborted run remains in the scratch directory. -/
theorem claim7_amended (req : UploadReq) (env : Env) (s : ServerState)
    (hff : env.ffmpegAvailable = true) (ha : req.hasAudio = true)
    (hfn : ¬ req.filename = "")
    (hfv : pyLower (req.format.getD "mp3") = "mp3" ∨
      pyLower (req.format.getD "mp3") = "wav")
    (sz : Nat) (hproc : env.proc = .timedOut (some sz)) :
    (upload_audio req env s).1 =
      .err 500 ("Conversion failed: " ++ "Conversion timeout") ∧
    FS.pathExists (upload_audio req env s).2.fs (tempInputPath env.uid) = false ∧
    FS.pathExists (upload_audio req env s).2.fs
      (outputPath env.ts env.uid (pyLower (req.format.getD "mp3"))) = true := by
  have hfv' := hfv
  rw [upload_audio_valid req env s hff ha hfn hfv]
  rcases hfv' with h | h <;> rw [h] <;>
    [(have hcmd := buildCmd_mp3 (tempInputPath env.uid)
        (outputPath env.ts env.uid "mp3") (req.quality.getD "192"));
     (have hcmd := buildCmd_wav (tempInputPath env.uid)
        (outputPath env.ts env.uid "wav") (req.quality.getD "192"))] <;>
  · have hconv := convert_audio_timedOut_eq
      (FS.writeFile s.fs (tempInputPath env.uid) req.audioSize)
      (tempInputPath env.uid) _ _ (req.quality.getD "192") (some sz) _
      (pathExists_writeFile_self _ _ _) hcmd
    rw [processUpload_of_fail _ _ _ _ _ _ _ (by rw [hproc]; exact hconv)]
    refine ⟨rfl, FS.pathExists_removePath_self _ _, ?_⟩
    simp only [applyProcWrite]
    rw [FS.pathExists, FS.lookupSize_removePath_ne _ _ _
      (fun hq => tempInputPath_ne_outputPath _ _ _ hq.symm),
      FS.lookupSize_writeFile_self]
    rfl

/-- Witness for claim7_amended at a concrete timed-out run. -/
theorem claim7_amended_witness :
    (upload_audio ⟨true, "blob.webm", 1000, some "mp3", some "128"⟩
      ⟨true, "abcd1234", "20250101_120000", .timedOut (some 999)⟩
      ⟨[], []⟩).1 = .err 500 ("Conversion failed: " ++ "Conversion timeout") ∧
    FS.pathExists (upload_audio ⟨true, "blob.webm", 1000, some "mp3", some "128"⟩
      ⟨true, "abcd1234", "20250101_120000", .timedOut (some 999)⟩
      ⟨[], []⟩).2.fs (tempInputPath "abcd1234") = false ∧
    FS.pathExists (upload_audio ⟨true, "blob.webm", 1000, some "mp3", some "128"⟩
      ⟨true, "abcd1234", "20250101_120000", .timedOut (some 999)⟩
      ⟨[], []⟩).2.fs (outputPath "20250101_120000" "abcd1234"
        (pyLower ((some "mp3").getD "mp3"))) = true :=
  claim7_amended _ _ _ rfl rfl (by decide) (Or.inl (by decide)) 999 rfl

/-- Claim C2 (confirmed): on a completed external run, convert_audio reports
success precisely when the exit code is zero and the output file exists
afterwards; a zero exit with a missing output file yields the process-error
message built from the diagnostic stream, never success. -/
theorem claim2_success_iff (fs : FS) (i o f q : String) (rc : Int)
    (stderr : String) (w : Option Nat) (cmd : List String)
    (hin : FS.pathExists fs i = true)
    (hcmd : buildCmd i o f q = some cmd) :
    ((convert_audio fs i o f q (.completed rc stderr w)).1.1 = true ↔
      (rc = 0 ∧ FS.pathExists (applyProcWrite fs o w) o = true)) ∧
    ((rc = 0 ∧ FS.pathExists (applyProcWrite fs o w) o = false) →
      (convert_audio fs i o f q (.completed rc stderr w)).1 =
        (false, "FFmpeg error: " ++ stderr)) := by
  unfold convert_audio
  rw [hcmd]
  by_cases hc : rc = 0 ∧ FS.pathExists (applyProcWrite fs o w) o
  · simp [hin, hc]
  · constructor
    · simp [hin, hc]
    · intro hw
      simp [hin, if_neg hc]

/-- Witness for claim2_success_iff: a run with exit code 0 and no output
file written into an empty-output store is classified as a failure carrying
the diagnostic. -/
theorem claim2_success_iff_witness :
    (((convert_audio [("in.webm", 3)] "in.webm" "out.mp3" "mp3" "192"
        (.completed 0 "boom" none)).1.1 = true ↔
      ((0 : Int) = 0 ∧ FS.pathExists (applyProcWrite [("in.webm", 3)] "out.mp3" none)
        "out.mp3" = true)) ∧
    (((0 : Int) = 0 ∧ FS.pathExists (applyProcWrite [("in.webm", 3)] "out.mp3" none)
        "out.mp3" = false) →
      (convert_audio [("in.webm", 3)] "in.webm" "out.mp3" "mp3" "192"
        (.completed 0 "boom" none)).1 = (false, "FFmpeg error: " ++ "boom"))) :=
  claim2_success_iff [("in.webm", 3)] "in.webm" "out.mp3" "mp3" "192" 0 "boom" none
    ["ffmpeg", "-i", "in.webm", "-codec:a", "libmp3lame", "-b:a", "192" ++ "k",
      "-ar", "44100", "-ac", "2", "-y", "out.mp3"]
    (by decide) (by decide)

/-- Claim C3 (confirmed): whenever the conversion pipeline runs (the probe
and the three validations passed), the staged input file is gone from the
store the response is produced from, on success and failure alike. -/
theorem claim3_staged_input_released (req : UploadReq) (env : Env) (s : ServerState)
    (hff : env.ffmpegAvailable = true) (ha : req.hasAudio = true)
    (hfn : ¬ req.filename = "")
    (hfv : pyLower (req.format.getD "mp3") = "mp3" ∨
      pyLower (req.format.getD "mp3") = "wav") :
    FS.pathExists (upload_audio req env s).2.fs (tempInputPath env.uid) = false := by
  rw [upload_audio_valid req env s hff ha hfn hfv]
  unfold processUpload
  by_cases hres : (convert_audio
      (FS.writeFile s.fs (tempInputPath env.uid) req.audioSize)
      (tempInputPath env.uid)
      (outputPath env.ts env.uid (pyLower (req.format.getD "mp3")))
      (pyLower (req.format.getD "mp3")) (req.quality.getD "192") env.proc).1.1 = true
  <;> simp [hres, cleanupInput, FS.pathExists_removePath_self]

/-- Witness for claim3_staged_input_released at a successful concrete upload. -/
theorem claim3_witness :
    FS.pathExists (upload_audio ⟨true, "blob.webm", 1000, some "mp3", some "128"⟩
      ⟨true, "abcd1234", "20250101_120000", .completed 0 "" (some 500)⟩
      ⟨[], []⟩).2.fs (tempInputPath "abcd1234") = false :=
  claim3_staged_input_released _ _ _ rfl rfl (by decide) (Or.inl (by decide))

/-- Claim C9 (confirmed): releasing the same staged input twice, and firing
the expiry deletion twice on the same artifact path, are idempotent — the
second call produces no state change beyond the effect of the first call (and
no error, both operations being total in the model as in the try/except of the
try/except). -/
theorem claim9_release_expiry_idempotent (fs : FS) (p : String) :
    cleanupInput (cleanupInput fs p) p = cleanupInput fs p ∧
    fireTimer (fireTimer fs p) p = fireTimer fs p := by
  constructor
  · exact FS.removePath_removePath fs p
  · unfold fireTimer
    by_cases h1 : osPathExists fs p = true
    · rw [if_pos h1]
      by_cases h2 : osPathExists (FS.removePath fs p) p = true
      · rw [if_pos h2]
        exact FS.removePath_removePath fs p
      · rw [if_neg h2]
    · rw [if_neg h1, if_neg h1]

theorem processUpload_not_400 (f q : String) (req : UploadReq) (env : Env)
    (s : ServerState) : isClientError (processUpload f q req env s).1 = false := by
  unfold processUpload
  by_cases hres : (convert_audio
      (FS.writeFile s.fs (tempInputPath env.uid) req.audioSize)
      (tempInputPath env.uid) (outputPath env.ts env.uid f) f q env.proc).1.1 = true
  <;> simp [hres, isClientError]

/-- Claim C8 (counterexample): with the transcoder binary unavailable, a
request whose multipart audio field is missing — one of the conditions the
claim says yields a 400 — is answered 500, because the ffmpeg probe gate
runs before every validation check; the stated "exactly when" equivalence is
false of the code. -/
theorem claim8_counterexample :
    (upload_audio ⟨false, "", 0, some "mp3", none⟩
      ⟨false, "abcd1234", "20250101_120000", .binMissing⟩ ⟨[], []⟩).1 =
      .err 500 "FFmpeg is not installed on the server. Please install FFmpeg." ∧
    isClientError (upload_audio ⟨false, "", 0, some "mp3", none⟩
      ⟨false, "abcd1234", "20250101_120000", .binMissing⟩ ⟨[], []⟩).1 = false :=
  ⟨by decide, by decide⟩

/-- Claim C8 (amended): provided the transcoder probe succeeds, POST
/upload_audio returns a 400 JSON error precisely when the audio field is
missing, the filename is empty, or the lowercased format is neither mp3 nor
wav; in the unsupported-format case with the audio field present and a
nonempty filename the body is exactly the invalid-format message and the
server state — in particular the scratch directory — is unchanged.  When the
probe fails, a 500 is returned even for requests meeting those conditions. -/
theorem claim8_amended (req : UploadReq) (env : Env) (s : ServerState)
    (hff : env.ffmpegAvailable = true) :
    (isClientError (upload_audio req env s).1 = true ↔
      (req.hasAudio = false ∨ req.filename = "" ∨
        ¬ (pyLower (req.format.getD "mp3") = "mp3" ∨
           pyLower (req.format.getD "mp3") = "wav"))) ∧
    (req.hasAudio = true → ¬ req.filename = "" →
      ¬ (pyLower (req.format.getD "mp3") = "mp3" ∨
         pyLower (req.format.getD "mp3") = "wav") →
      (upload_audio req env s).1 = .err 400 "Invalid format. Use mp3 or wav" ∧
      (upload_audio req env s).2 = s) := by
  constructor
  · by_cases h2 : req.hasAudio = true
    · by_cases h3 : req.filename = ""
      · unfold upload_audio
        simp [hff, h2, h3, isClientError]
      · by_cases h4 : (pyLower (req.format.getD "mp3") = "mp3" ∨
            pyLower (req.format.getD "mp3") = "wav")
        · rw [upload_audio_valid req env s hff h2 h3 h4]
          simp [h2, h3, h4, processUpload_not_400]
        · unfold upload_audio
          simp [hff, h2, h3, h4, isClientError]
    · unfold upload_audio
      simp [hff, h2, isClientError, (by simpa using h2 : req.hasAudio = false)]
  · intro ha hfn hfmt
    unfold upload_audio
    simp [hff, ha, hfn, hfmt]

/-- Witness for claim8_amended: a request with format ogg is answered with
the exact invalid-format 400 body and writes nothing. -/
theorem claim8_amended_witness :
    (isClientError (upload_audio ⟨true, "blob.webm", 1000, some "ogg", none⟩
      ⟨true, "abcd1234", "20250101_120000", .binMissing⟩ ⟨[], []⟩).1 = true ↔
      ((⟨true, "blob.webm", 1000, some "ogg", none⟩ : UploadReq).hasAudio = false ∨
        (⟨true, "blob.webm", 1000, some "ogg", none⟩ : UploadReq).filename = "" ∨
        ¬ (pyLower ((some "ogg").getD "mp3") = "mp3" ∨
           pyLower ((some "ogg").getD "mp3") = "wav"))) ∧
    ((⟨true, "blob.webm", 1000, some "ogg", none⟩ : UploadReq).hasAudio = true →
      ¬ (⟨true, "blob.webm", 1000, some "ogg", none⟩ : UploadReq).filename = "" →
      ¬ (pyLower ((some "ogg").getD "mp3") = "mp3" ∨
         pyLower ((some "ogg").getD "mp3") = "wav") →
      (upload_audio ⟨true, "blob.webm", 1000, some "ogg", none⟩
        ⟨true, "abcd1234", "20250101_120000", .binMissing⟩ ⟨[], []⟩).1 =
        .err 400 "Invalid format. Use mp3 or wav" ∧
      (upload_audio ⟨true, "blob.webm", 1000, some "ogg", none⟩
        ⟨true, "abcd1234", "20250101_120000", .binMissing⟩ ⟨[], []⟩).2 =
        ⟨[], []⟩) :=
  claim8_amended ⟨true, "blob.webm", 1000, some "ogg", none⟩
    ⟨true, "abcd1234", "20250101_120000", .binMissing⟩ ⟨[], []⟩ rfl

/-- Claim C10 (confirmed): the quality form field is never validated: for a
valid mp3 upload any quality string passes (never a 400), is spliced
verbatim into the transcoder bitrate argument as quality ++ "k", is echoed
back in the success body as quality ++ " kbps", and any error outcome of
such a request carries status 500, never 400. -/
theorem claim10_quality_unvalidated (req : UploadReq) (env : Env) (s : ServerState)
    (q : String) (hff : env.ffmpegAvailable = true) (ha : req.hasAudio = true)
    (hfn : ¬ req.filename = "") (hq : req.quality = some q)
    (hfmt : pyLower (req.format.getD "mp3") = "mp3") :
    isClientError (upload_audio req env s).1 = false ∧
    buildCmd (tempInputPath env.uid) (outputPath env.ts env.uid "mp3") "mp3" q =
      some ["ffmpeg", "-i", tempInputPath env.uid, "-codec:a", "libmp3lame",
        "-b:a", q ++ "k", "-ar", "44100", "-ac", "2", "-y",
        outputPath env.ts env.uid "mp3"] ∧
    (∀ fn fsz url fmtU qual, (upload_audio req env s).1 = .ok fn fsz url fmtU qual →
      qual = q ++ " kbps") ∧
    (∀ st m, (upload_audio req env s).1 = .err st m → st = 500) := by
  have hvalid := upload_audio_valid req env s hff ha hfn (Or.inl hfmt)
  refine ⟨?_, buildCmd_mp3 _ _ _, ?_, ?_⟩
  · rw [hvalid]
    exact processUpload_not_400 _ _ _ _ _
  · intro fn fsz url fmtU qual hok
    rw [hvalid, hfmt, hq] at hok
    simp only [Option.getD_some] at hok
    by_cases hres : (convert_audio
        (FS.writeFile s.fs (tempInputPath env.uid) req.audioSize)
        (tempInputPath env.uid) (outputPath env.ts env.uid "mp3") "mp3" q
        env.proc).1.1 = true
    · simp [processUpload, hres] at hok
      exact hok.2.2.2.2.symm
    · simp [processUpload, hres] at hok
  · intro st m herr
    rw [hvalid, hfmt, hq] at herr
    simp only [Option.getD_some] at herr
    by_cases hres : (convert_audio
        (FS.writeFile s.fs (tempInputPath env.uid) req.audioSize)
        (tempInputPath env.uid) (outputPath env.ts env.uid "mp3") "mp3" q
        env.proc).1.1 = true
    · simp [processUpload, hres] at herr
    · simp [processUpload, hres] at herr
      exact herr.1.symm

/-- Witness for claim10_quality_unvalidated with a malformed, non-numeric
quality value. -/
theorem claim10_witness :
    isClientError (upload_audio ⟨true, "blob.webm", 1000, some "mp3",
      some "not-a-number"⟩
      ⟨true, "abcd1234", "20250101_120000", .completed 1 "bitrate parse error" none⟩
      ⟨[], []⟩).1 = false :=
  (claim10_quality_unvalidated ⟨true, "blob.webm", 1000, some "mp3",
      some "not-a-number"⟩
    ⟨true, "abcd1234", "20250101_120000", .completed 1 "bitrate parse error" none⟩
    ⟨[], []⟩ "not-a-number" rfl rfl (by decide) rfl (by decide)).1

theorem convert_audio_success_eq (fs : FS) (i o f q : String) (p : ProcResult)
    (h : (convert_audio fs i o f q p).1.1 = true) :
    convert_audio fs i o f q p =
      ((true, "Conversion successful"), (convert_audio fs i o f q p).2) := by
  unfold convert_audio at h ⊢
  by_cases h1 : FS.pathExists fs i
  · cases hb : buildCmd i o f q with
    | none => simp [h1, hb] at h
    | some cmd =>
      cases p with
      | timedOut w => simp [h1, hb] at h
      | binMissing => simp [h1, hb] at h
      | completed rc stderr w =>
        by_cases hc : rc = 0 ∧ FS.pathExists (applyProcWrite fs o w) o
        · simp [h1, hb, hc]
        · simp [h1, hb, hc] at h
  · simp [h1] at h

/-- Claim C4 (confirmed): for a valid upload (mp3 or wav) answered 200, the
download_url is the download route of the returned filename, and resolving
that filename through download_file on the post-upload state serves the
artifact at its in-directory path with a byte size from which the reported
file_size value was computed. -/
theorem claim4_download_size_matches (req : UploadReq) (env : Env) (s : ServerState)
    (fn url fmtU qual : String) (fsz : Nat)
    (hff : env.ffmpegAvailable = true) (ha : req.hasAudio = true)
    (hfn : ¬ req.filename = "")
    (hfv : pyLower (req.format.getD "mp3") = "mp3" ∨
      pyLower (req.format.getD "mp3") = "wav")
    (huid : ∀ c ∈ env.uid.data, goodChar c = true)
    (hts : ∀ c ∈ env.ts.data, goodChar c = true)
    (hok : (upload_audio req env s).1 = .ok fn fsz url fmtU qual) :
    url = "/download/" ++ fn ∧
    ∃ sz, (download_file (upload_audio req env s).2 fn).1 =
        .fileAttachment (UPLOAD_FOLDER ++ "/" ++ fn) sz fn ∧
      fsz = fileSizeCentiMB sz := by
  have hvalid := upload_audio_valid req env s hff ha hfn hfv
  rw [hvalid] at hok ⊢
  by_cases hres : (convert_audio
      (FS.writeFile s.fs (tempInputPath env.uid) req.audioSize)
      (tempInputPath env.uid)
      (outputPath env.ts env.uid (pyLower (req.format.getD "mp3")))
      (pyLower (req.format.getD "mp3")) (req.quality.getD "192") env.proc).1.1 = true
  · have hceq := convert_audio_success_eq
      (FS.writeFile s.fs (tempInputPath env.uid) req.audioSize)
      (tempInputPath env.uid)
      (outputPath env.ts env.uid (pyLower (req.format.getD "mp3")))
      (pyLower (req.format.getD "mp3")) (req.quality.getD "192") env.proc hres
    rw [processUpload_of_ok _ _ _ _ _ _ hceq] at hok ⊢
    have hx := convert_audio_success_pathExists
      (FS.writeFile s.fs (tempInputPath env.uid) req.audioSize)
      (tempInputPath env.uid)
      (outputPath env.ts env.uid (pyLower (req.format.getD "mp3")))
      (pyLower (req.format.getD "mp3")) (req.quality.getD "192") env.proc hres
    obtain ⟨sz, hsz⟩ : ∃ sz, FS.lookupSize
        (convert_audio (FS.writeFile s.fs (tempInputPath env.uid) req.audioSize)
          (tempInputPath env.uid)
          (outputPath env.ts env.uid (pyLower (req.format.getD "mp3")))
          (pyLower (req.format.getD "mp3")) (req.quality.getD "192") env.proc).2
        (outputPath env.ts env.uid (pyLower (req.format.getD "mp3"))) = some sz := by
      rw [FS.pathExists] at hx
      exact Option.isSome_iff_exists.mp hx
    have hne : outputPath env.ts env.uid (pyLower (req.format.getD "mp3")) ≠
        tempInputPath env.uid :=
      fun hq => tempInputPath_ne_outputPath env.uid env.ts _ hq.symm
    have hlook2 : FS.lookupSize
        (FS.removePath (convert_audio
          (FS.writeFile s.fs (tempInputPath env.uid) req.audioSize)
          (tempInputPath env.uid)
          (outputPath env.ts env.uid (pyLower (req.format.getD "mp3")))
          (pyLower (req.format.getD "mp3")) (req.quality.getD "192") env.proc).2
          (tempInputPath env.uid))
        (outputPath env.ts env.uid (pyLower (req.format.getD "mp3"))) = some sz := by
      rw [FS.lookupSize_removePath_ne _ _ _ hne, hsz]
    simp only [UploadResp.ok.injEq] at hok
    obtain ⟨h1, h2, h3, h4, h5⟩ := hok
    subst h1
    subst h2
    subst h3
    refine ⟨rfl, sz, ?_, by rw [hlook2]; rfl⟩
    have hsec : secure_filename
        (outputFilename env.ts env.uid (pyLower (req.format.getD "mp3"))) =
        outputFilename env.ts env.uid (pyLower (req.format.getD "mp3")) :=
      secure_outputFilename _ _ _ hts huid hfv
    have hhead : (outputFilename env.ts env.uid
        (pyLower (req.format.getD "mp3"))).data.head? = some 'r' := rfl
    have hnil : (outputFilename env.ts env.uid
        (pyLower (req.format.getD "mp3"))).data ≠ [] := by
      intro hd
      rw [hd] at hhead
      simp at hhead
    have hnoslash : '/' ∉ (outputFilename env.ts env.uid
        (pyLower (req.format.getD "mp3"))).data := by
      rw [← hsec]
      exact secure_filename_no_slash _
    have hfp : UPLOAD_FOLDER ++ "/" ++
        outputFilename env.ts env.uid (pyLower (req.format.getD "mp3")) =
        outputPath env.ts env.uid (pyLower (req.format.getD "mp3")) := rfl
    have hnedir : outputPath env.ts env.uid (pyLower (req.format.getD "mp3")) ≠
        UPLOAD_FOLDER ++ "/" := by
      rw [← hfp]
      exact append_ne_of_data_ne_nil _ _ hnil
    dsimp only
    simp only [download_file]
    rw [hsec, pathJoin_of_good _ _ hnil hnoslash, hfp]
    rw [if_neg (by simp [osPathExists, FS.pathExists, hlook2]), if_neg hnedir]
    rw [hlook2]
  · simp [processUpload, hres] at hok

/-- Witness for claim4_download_size_matches at a concrete successful
upload whose artifact is then downloaded. -/
theorem claim4_witness :
    "/download/recording_20250101_120000_abcd1234.mp3" =
      "/download/" ++ "recording_20250101_120000_abcd1234.mp3" ∧
    ∃ sz, (download_file (upload_audio
        ⟨true, "blob.webm", 1000, some "mp3", some "128"⟩
        ⟨true, "abcd1234", "20250101_120000", .completed 0 "" (some 500)⟩
        ⟨[], []⟩).2 "recording_20250101_120000_abcd1234.mp3").1 =
        .fileAttachment (UPLOAD_FOLDER ++ "/" ++
          "recording_20250101_120000_abcd1234.mp3") sz
          "recording_20250101_120000_abcd1234.mp3" ∧
      fileSizeCentiMB 500 = fileSizeCentiMB sz :=
  claim4_download_size_matches
    ⟨true, "blob.webm", 1000, some "mp3", some "128"⟩
    ⟨true, "abcd1234", "20250101_120000", .completed 0 "" (some 500)⟩
    ⟨[], []⟩ "recording_20250101_120000_abcd1234.mp3"
    "/download/recording_20250101_120000_abcd1234.mp3" "MP3" "128 kbps"
    (fileSizeCentiMB 500) rfl rfl (by decide) (Or.inl (by decide))
    (by decide) (by decide) (by decide)

/-- Claim C6 (counterexample): the traversal identifier
"../recording_1.mp3" — containing both a path separator and a
parent-directory sequence — is not answered 404: its sanitized residue
matches an existing artifact inside the scratch directory and that file is
served, refuting the claim that every such identifier yields NotFound. -/
theorem claim6_counterexample :
    (download_file ⟨[("static/temp/recording_1.mp3", 9)], []⟩
      "../recording_1.mp3").1 =
      .fileAttachment "static/temp/recording_1.mp3" 9 "../recording_1.mp3" ∧
    (download_file ⟨[("static/temp/recording_1.mp3", 9)], []⟩
      "../recording_1.mp3").1 ≠ .notFound :=
  ⟨by decide, by decide⟩

/-- Claim C6 (amended): identifiers are sanitized before being joined to the
scratch directory, and the sanitization guarantees that whenever a file is
served its path is the scratch directory joined with the sanitized name —
nonempty, free of path separators, not dot-initial — so no file outside the
scratch directory can ever be served; an identifier whose sanitized form is
nonempty and names no stored file is answered NotFound, indistinguishable
from an unknown filename.  Two deviations from the original claim: a
traversal identifier whose sanitized residue matches a stored artifact is
served that in-directory artifact instead of 404; and an identifier whose
sanitized form is empty (such as "..") joins to the scratch directory
itself, where send_file raises and the handler answers a 500 whose body
names the scratch-directory path — distinguishable and path-revealing, not
a 404. -/
theorem claim6_amended (s s2 s3 : ServerState)
    (fname fname2 fname3 p name : String) (sz : Nat)
    (hserve : (download_file s fname).1 = .fileAttachment p sz name)
    (habs : FS.lookupSize s2.fs
      (pathJoin UPLOAD_FOLDER (secure_filename fname2)) = none)
    (hne : secure_filename fname2 ≠ "")
    (hemp : secure_filename fname3 = "") :
    (p = UPLOAD_FOLDER ++ "/" ++ secure_filename fname ∧
      secure_filename fname ≠ "" ∧
      '/' ∉ (secure_filename fname).data ∧
      (secure_filename fname).data.head? ≠ some '.' ∧
      (secure_filename fname).data.head? ≠ some '_') ∧
    (download_file s2 fname2).1 = .notFound ∧
    (download_file s3 fname3).1 =
      .errServer ("Download error: Is a directory: " ++ (UPLOAD_FOLDER ++ "/")) := by
  refine ⟨?_, download_file_notFound s2 fname2 habs hne, ?_⟩
  case refine_2 =>
    simp only [download_file]
    rw [hemp]
    rw [show pathJoin UPLOAD_FOLDER "" = UPLOAD_FOLDER ++ "/" from rfl]
    rw [if_neg (by simp [osPathExists]), if_pos rfl]
  obtain ⟨hp, hnd, hlook, hname, htm⟩ := download_file_serve s fname p name sz hserve
  have hnoslash := secure_filename_no_slash fname
  have hne1 : secure_filename fname ≠ "" := by
    intro he
    apply hnd
    rw [hp, he]
    rfl
  have hnil : (secure_filename fname).data ≠ [] := data_ne_nil_of_ne_empty _ hne1
  refine ⟨?_, hne1, hnoslash, ?_, ?_⟩
  · rw [hp, pathJoin_of_good _ _ hnil hnoslash]
  · intro hh
    have hx := secure_filename_head_not fname '.' hh
    simp [isDotUnderscore] at hx
  · intro hh
    have hx := secure_filename_head_not fname '_' hh
    simp [isDotUnderscore] at hx

/-- Witness for claim6_amended: a concrete served traversal identifier, a
concrete traversal identifier whose sanitized residue matches nothing, and
the ".." identifier whose sanitized form is empty and draws the directory
500. -/
theorem claim6_amended_witness :
    ("static/temp/recording_1.mp3" = UPLOAD_FOLDER ++ "/" ++
        secure_filename "../recording_1.mp3" ∧
      secure_filename "../recording_1.mp3" ≠ "" ∧
      '/' ∉ (secure_filename "../recording_1.mp3").data ∧
      (secure_filename "../recording_1.mp3").data.head? ≠ some '.' ∧
      (secure_filename "../recording_1.mp3").data.head? ≠ some '_') ∧
    (download_file ⟨[("static/temp/recording_1.mp3", 9)], []⟩
      "../../etc/passwd").1 = .notFound ∧
    (download_file ⟨[("static/temp/recording_1.mp3", 9)], []⟩ "..").1 =
      .errServer ("Download error: Is a directory: " ++ (UPLOAD_FOLDER ++ "/")) :=
  claim6_amended ⟨[("static/temp/recording_1.mp3", 9)], []⟩
    ⟨[("static/temp/recording_1.mp3", 9)], []⟩
    ⟨[("static/temp/recording_1.mp3", 9)], []⟩
    "../recording_1.mp3" "../../etc/passwd" ".."
    "static/temp/recording_1.mp3" "../recording_1.mp3" 9
    (by decide) (by decide) (by decide) (by decide)

end VoiceRecorder
